import Mathlib

/-!
Shallow embedding of the pySwitchbot BLE advertisement decoding engine
(src/switchbot/adv_parser.py, src/switchbot/helpers.py and the per-model
parsers under src/switchbot/adv_parsers/), together with theorems checking
the natural-language specification against it.

Conventions of the embedding:
- a Python `bytes` value is a `List Nat` (each element is in 0..255 at
  call sites; the parsers only mask and compare bytes, so no invariant is
  needed);
- Python indexing `b[i]` (which raises `IndexError` past the end) is the
  fallible `byteAt`; Python slicing (which never raises) is `sliceFT` /
  `List.drop`;
- a parser that may raise returns `Option` (`none` = some exception was
  raised), matching the resolver's `try/except` boundary;
- Python `float` arithmetic in the parsers (tenths of degrees, watt
  tenths) is modelled exactly over `ℚ`;
- the keypad parser's hidden `process_wokeypad.lastStatus` function
  attribute is threaded as explicit `Int` state through every function
  that can reach it.
-/

namespace PySwitchbot

/-- A Python `bytes` value. -/
abbrev Bytes := List Nat

/-- Python `b[i]` for a non-negative index: `some` byte, or `none` when the
index is past the end (Python raises `IndexError`). -/
def byteAt (b : Bytes) (i : Nat) : Option Nat := b.get? i

/-- Python `b[i:j]` for non-negative bounds (never raises). -/
def sliceFT (b : Bytes) (i j : Nat) : Bytes := (b.take j).drop i

/-- Python `b[-n:]` for `0 < n ≤ len b`: the last `n` bytes. -/
def lastN (n : Nat) (b : Bytes) : Bytes := b.drop (b.length - n)

/-- Python `int.from_bytes(l, byteorder="big")` (also the value of a
big-endian `struct` unpack once the length is checked). -/
def beNat (l : Bytes) : Nat := l.foldl (fun a x => a * 256 + x) 0

/-- Python `struct.unpack(">H", l)[0]`: requires exactly 2 bytes, else
`struct.error`. -/
def unpackU16BE (l : Bytes) : Option Nat :=
  match l with
  | [a, b] => some (a * 256 + b)
  | _ => none

/-- Python `struct.unpack("<H", l)[0]`: requires exactly 2 bytes, else
`struct.error`. -/
def unpackU16LE (l : Bytes) : Option Nat :=
  match l with
  | [a, b] => some (b * 256 + a)
  | _ => none

/-- Python `struct.Struct(">H").unpack_from(b, off)[0]`: requires
`off + 2 ≤ len b`, else `struct.error`. -/
def unpackFromU16BE (b : Bytes) (off : Nat) : Option Nat :=
  if off + 2 ≤ b.length then some (b.getD off 0 * 256 + b.getD (off + 1) 0)
  else none

/-- Python `bool(x & mask)` for an integer `x`. -/
def bitB (x mask : Nat) : Bool := x &&& mask != 0

/-- `helpers.celsius_to_fahrenheit`. -/
def celsius_to_fahrenheit (celsius : ℚ) : ℚ := celsius * 9 / 5 + 32

/-- The `ValueError` message raised by the two shared helpers below. -/
def insufficientMsg (needed got : Nat) : String :=
  "Insufficient data: need at least " ++ toString needed ++ " bytes, got "
    ++ toString got

/-- `helpers.parse_power_data`: reads 2 bytes big-endian at `offset`,
applies the optional mask, divides by `scale`; raises a `ValueError`
naming the needed and available lengths when fewer than 2 bytes remain.
(The callers always pass a non-zero scale; `ℚ` division by a zero scale
yields 0 where Python would raise `ZeroDivisionError`.) -/
def parse_power_data (data : Bytes) (offset : Nat) (scale : ℚ)
    (mask : Option Nat) : Except String ℚ :=
  if offset + 2 > data.length then
    .error (insufficientMsg (offset + 2) data.length)
  else
    let value := data.getD offset 0 * 256 + data.getD (offset + 1) 0
    let value := match mask with
      | some m => value &&& m
      | none => value
    .ok ((value : ℚ) / scale)

/-- `helpers.parse_uint24_be`: reads 3 bytes big-endian at `offset` by
zero-padding to 4 bytes; raises a `ValueError` naming the needed and
available lengths when fewer than 3 bytes remain. -/
def parse_uint24_be (data : Bytes) (offset : Nat) : Except String Nat :=
  if offset + 3 > data.length then
    .error (insufficientMsg (offset + 3) data.length)
  else
    .ok (beNat (0 :: sliceFT data offset (offset + 3)))

/-! ## Attribute mappings

The parsers return Python dicts whose keys are strings (or channel numbers
for the 2-channel relay switch) and whose values are None, bools, ints,
floats, strings, `timedelta` durations, enum members, or one-level nested
dicts of such scalars (`temp: {c, f}`, per-channel maps). Python dict
literals and updates keep insertion order; `setKey` mirrors Python dict
assignment (update in place, append when new). -/

/-- A Python dict key as used by the parsers: a string, or a channel
number (2-channel relay switch). -/
inductive AKey where
  | s (k : String)
  | n (k : Nat)
deriving DecidableEq, Repr

/-- A scalar Python value stored in a parser result. `vEnum ty n` is the
enum member of class `ty` with value `n`; `vDurHours h` is
`timedelta(hours=h)`. -/
inductive AttrLeaf where
  | vNone
  | vBool (b : Bool)
  | vInt (i : Int)
  | vRat (q : ℚ)
  | vStr (s : String)
  | vDurHours (h : Nat)
  | vEnum (ty : String) (n : Nat)
deriving DecidableEq, Repr

/-- A parser result value: a scalar, or a one-level nested dict of
scalars (the only nesting the source ever produces). -/
inductive AttrVal where
  | leaf (v : AttrLeaf)
  | vDict (m : List (AKey × AttrLeaf))
deriving DecidableEq, Repr

abbrev aNone : AttrVal := .leaf .vNone

abbrev aBool (b : Bool) : AttrVal := .leaf (.vBool b)

abbrev aInt (i : Int) : AttrVal := .leaf (.vInt i)

/-- A non-negative Python int attribute value. -/
abbrev aNat (n : Nat) : AttrVal := .leaf (.vInt n)

abbrev aRat (q : ℚ) : AttrVal := .leaf (.vRat q)

abbrev aStr (s : String) : AttrVal := .leaf (.vStr s)

abbrev aDur (h : Nat) : AttrVal := .leaf (.vDurHours h)

abbrev aEnum (ty : String) (n : Nat) : AttrVal := .leaf (.vEnum ty n)

/-- A parser's attribute mapping (a Python dict in insertion order). -/
abbrev AttrMap := List (AKey × AttrVal)

/-- Python `d[k] = v`: replace in place when the key exists, append
otherwise. -/
def setKey (m : AttrMap) (k : AKey) (v : AttrVal) : AttrMap :=
  if m.any (fun p => p.1 == k) then
    m.map (fun p => if p.1 == k then (k, v) else p)
  else m ++ [(k, v)]

/-- Python `d.update(other)` / `{**d, **other}` / `d | other`. -/
def updMap (m other : AttrMap) : AttrMap :=
  other.foldl (fun acc p => setKey acc p.1 p.2) m

/-! ## Enum constructors and name tables (src/switchbot/const/) -/

/-- `HumidifierMode(value)` (const/evaporative_humidifier.py): members
have values 1..8; any other value raises `ValueError`. -/
def humidifierModeOf (n : Nat) : Option Nat :=
  if 1 ≤ n ∧ n ≤ 8 then some n else none

/-- `LockStatus(value)` (const/lock.py): members have values 0..6; any
other value raises `ValueError`. -/
def lockStatusOf (n : Nat) : Option Nat :=
  if n ≤ 6 then some n else none

/-- `HumidifierWaterLevel(value).name.lower()` for `value` in 0..3. -/
def humidifierWaterLevelName (n : Nat) : String :=
  if n = 0 then "empty"
  else if n = 1 then "low"
  else if n = 2 then "medium"
  else "high"

/-- `FanMode(value).name` for `value` in 1..4. -/
def fanModeName (n : Nat) : String :=
  if n = 1 then "NORMAL"
  else if n = 2 then "NATURAL"
  else if n = 3 then "SLEEP"
  else "BABY"

/-- `AirQualityLevel(value).name.lower()` for `value` in 0..3. -/
def airQualityLevelName (n : Nat) : String :=
  if n = 0 then "excellent"
  else if n = 1 then "good"
  else if n = 2 then "moderate"
  else "unhealthy"

/-- `AirPurifierMode(value).name.lower()` for `value` in 1..6. -/
def airPurifierModeName (n : Nat) : String :=
  if n = 1 then "level_1"
  else if n = 2 then "level_2"
  else if n = 3 then "level_3"
  else if n = 4 then "auto"
  else if n = 5 then "sleep"
  else "pet"

/-! ## Per-model parsers present under src/switchbot/adv_parsers/

Each returns `Option AttrMap`: `none` models an exception escaping the
parser (out-of-range index, short `struct` buffer, out-of-range enum
value), to be absorbed by the resolver's catch-all. -/

/-- adv_parsers/light_strip.py `process_wostrip`. -/
def process_wostrip (data mfr_data : Option Bytes) : Option AttrMap :=
  match data, mfr_data with
  | _, none => some []
  | _, some m => do
    let m6 ← byteAt m 6
    let m7 ← byteAt m 7
    let m8 ← byteAt m 8
    some [(.s "sequence_number", aNat m6),
          (.s "isOn", aBool (bitB m7 0b10000000)),
          (.s "brightness", aNat (m7 &&& 0b01111111)),
          (.s "delay", aBool (bitB m8 0b10000000)),
          (.s "network_state", aNat ((m8 &&& 0b01110000) >>> 4)),
          (.s "color_mode", aNat (m8 &&& 0b00001111))]

/-- adv_parsers/light_strip.py `process_light` (strip light 3 and floor
lamp; the dispatch table applies it with the default `cw_offset = 16`). -/
def process_light (data mfr_data : Option Bytes) (cw_offset : Nat) :
    Option AttrMap := do
  let common ← process_wostrip data mfr_data
  if common.isEmpty then some []
  else
    match mfr_data with
    | none => none
    | some m => do
      let cw ← unpackFromU16BE m cw_offset
      some (updMap common [(.s "cw", aNat cw)])

/-- adv_parsers/plug.py `process_woplugmini`. -/
def process_woplugmini (data mfr_data : Option Bytes) : Option AttrMap :=
  match mfr_data with
  | none => some []
  | some m => do
    let m7 ← byteAt m 7
    let m9 ← byteAt m 9
    let power ← (parse_power_data m 10 10 (some 0x7FFF)).toOption
    some [(.s "switchMode", aBool true),
          (.s "isOn", aBool (m7 == 0x80)),
          (.s "wifi_rssi", aInt (-(m9 : Int))),
          (.s "power", aRat power)]

/-- adv_parsers/lock.py `process_locklite`. -/
def process_locklite (data mfr_data : Option Bytes) : Option AttrMap :=
  match mfr_data with
  | none => some []
  | some m => do
    let m6 ← byteAt m 6
    let battery : AttrVal ←
      match data with
      | some d =>
        if d.isEmpty then some aNone
        else do
          let d2 ← byteAt d 2
          some (aNat (d2 &&& 0b01111111))
      | none => some aNone
    let m7 ← byteAt m 7
    let status ← lockStatusOf ((m7 &&& 0b01110000) >>> 4)
    let m8 ← byteAt m 8
    let night : Bool := if 9 < m.length then bitB (m.getD 9 0) 0b00000001 else false
    some [(.s "sequence_number", aNat m6),
          (.s "battery", battery),
          (.s "calibration", aBool (bitB m7 0b10000000)),
          (.s "status", aEnum "LockStatus" status),
          (.s "update_from_secondary_lock", aBool (bitB m7 0b00001000)),
          (.s "double_lock_mode", aBool (bitB m8 0b10000000)),
          (.s "unlocked_alarm", aBool (bitB m8 0b00010000)),
          (.s "night_latch", aBool night)]

/-- adv_parsers/lock.py `process_wolock`. -/
def process_wolock (data mfr_data : Option Bytes) : Option AttrMap := do
  let common ← process_locklite data mfr_data
  if common.isEmpty then some []
  else
    match mfr_data with
    | none => none
    | some m => do
      let m7 ← byteAt m 7
      let m8 ← byteAt m 8
      some (setKey (setKey (setKey common
        (.s "door_open") (aBool (bitB m7 0b00000100)))
        (.s "unclosed_alarm") (aBool (bitB m8 0b00100000)))
        (.s "auto_lock_paused") (aBool (bitB m8 0b00000010)))

/-- adv_parsers/lock.py `parse_common_data`. -/
def parse_common_data (mfr_data : Option Bytes) : Option AttrMap :=
  match mfr_data with
  | none => some []
  | some m => do
    let m6 ← byteAt m 6
    let m7 ← byteAt m 7
    let status ← lockStatusOf ((m7 &&& 0b01111000) >>> 3)
    let m8 ← byteAt m 8
    let m9 ← byteAt m 9
    let m10 ← byteAt m 10
    let m11 ← byteAt m 11
    some [(.s "sequence_number", aNat m6),
          (.s "calibration", aBool (bitB m7 0b10000000)),
          (.s "status", aEnum "LockStatus" status),
          (.s "update_from_secondary_lock", aBool (bitB m8 0b11000000)),
          (.s "door_open_from_secondary_lock", aBool (bitB m8 0b00100000)),
          (.s "door_open", aBool (bitB m8 0b00010000)),
          (.s "auto_lock_paused", aBool (bitB m8 0b00001000)),
          (.s "battery", aNat (m9 &&& 0b01111111)),
          (.s "double_lock_mode", aBool (bitB m10 0b10000000)),
          (.s "is_secondary_lock", aBool (bitB m10 0b01000000)),
          (.s "manual_unlock_linkage", aBool (bitB m10 0b00100000)),
          (.s "unclosed_alarm", aBool (bitB m11 0b10000000)),
          (.s "unlocked_alarm", aBool (bitB m11 0b01000000)),
          (.s "night_latch", aBool false)]

/-- adv_parsers/lock.py `process_wolock_pro`. -/
def process_wolock_pro (data mfr_data : Option Bytes) : Option AttrMap := do
  let common ← parse_common_data mfr_data
  if common.isEmpty then some []
  else
    match mfr_data with
    | none => none
    | some m => do
      let m11 ← byteAt m 11
      some (updMap common
        [(.s "low_temperature_alarm", aBool (bitB m11 0b00100000)),
         (.s "left_battery_compartment_alarm", aNat (m11 &&& 0b000000100)),
         (.s "right_battery_compartment_alarm", aNat (m11 &&& 0b000000010))])

/-- adv_parsers/lock.py `process_lock2`. -/
def process_lock2 (data mfr_data : Option Bytes) : Option AttrMap := do
  let common ← parse_common_data mfr_data
  if common.isEmpty then some []
  else
    match mfr_data with
    | none => none
    | some m => do
      let m11 ← byteAt m 11
      some (updMap common
        [(.s "power_alarm", aBool (bitB m11 0b00010000)),
         (.s "battery_status", aNat (m11 &&& 0b00000111))])

/-- View a flat attribute mapping as the scalar entries of a nested dict
(used where the source splices a flat result dict into a per-channel
map; every value there is a scalar). -/
def leafEntries (m : AttrMap) : List (AKey × AttrLeaf) :=
  m.map (fun p => (p.1, match p.2 with | .leaf v => v | .vDict _ => .vNone))

namespace relay_switch

/-- adv_parsers/relay_switch.py `parse_power_data` (module-local helper,
distinct from the one in helpers.py): `struct.unpack(">H",
mfr_data[start:end])[0] / 10.0`. -/
def parse_power_data (mfr_data : Bytes) (start stop : Nat) : Option ℚ := do
  let v ← unpackU16BE (sliceFT mfr_data start stop)
  some ((v : ℚ) / 10)

end relay_switch

/-- adv_parsers/relay_switch.py `process_relay_switch_common_data`. -/
def process_relay_switch_common_data (data mfr_data : Option Bytes) :
    Option AttrMap :=
  match mfr_data with
  | none => some []
  | some m => do
    let m6 ← byteAt m 6
    let m7 ← byteAt m 7
    some [(.s "switchMode", aBool true),
          (.s "sequence_number", aNat m6),
          (.s "isOn", aBool (bitB m7 0b10000000))]

/-- adv_parsers/relay_switch.py `process_garage_door_opener`. -/
def process_garage_door_opener (data mfr_data : Option Bytes) :
    Option AttrMap :=
  match mfr_data with
  | none => some []
  | some m => do
    let common ← process_relay_switch_common_data data mfr_data
    let m7 ← byteAt m 7
    some (setKey common (.s "door_open") (aBool (!bitB m7 0b00100000)))

/-- adv_parsers/relay_switch.py `process_relay_switch_2pm`: a mapping
keyed by channel number. -/
def process_relay_switch_2pm (data mfr_data : Option Bytes) :
    Option AttrMap :=
  match mfr_data with
  | none => some []
  | some m => do
    let common ← process_relay_switch_common_data data mfr_data
    let p1 ← relay_switch.parse_power_data m 10 12
    let m6 ← byteAt m 6
    let m7 ← byteAt m 7
    let p2 ← relay_switch.parse_power_data m 12 14
    some [(.n 1, .vDict (leafEntries (updMap common
            [(.s "power", aRat p1), (.s "voltage", aNat 0),
             (.s "current", aNat 0)]))),
          (.n 2, .vDict
            [(.s "switchMode", .vBool true),
             (.s "sequence_number", .vInt m6),
             (.s "isOn", .vBool (bitB m7 0b01000000)),
             (.s "power", .vRat p2),
             (.s "voltage", .vInt 0),
             (.s "current", .vInt 0)])]

/-- adv_parsers/remote.py `process_woremote`. -/
def process_woremote (data mfr_data : Option Bytes) : Option AttrMap :=
  match data with
  | none => some [(.s "battery", aNone)]
  | some d => do
    let d2 ← byteAt d 2
    some [(.s "battery", aNat (d2 &&& 0b01111111))]

/-- adv_parsers/roller_shade.py `process_worollershade` (the dispatch
table applies it with the default `reverse = True`). -/
def process_worollershade (data mfr_data : Option Bytes) (reverse : Bool) :
    Option AttrMap :=
  match mfr_data with
  | none => some []
  | some m => do
    let device_data := m.drop 6
    let dd2 ← byteAt device_data 2
    let position := max (min (dd2 &&& 0b01111111) 100) 0
    let calibrated := bitB dd2 0b10000000
    let dd1 ← byteAt device_data 1
    let in_motion := bitB dd1 0b00000110
    let dd3 ← byteAt device_data 3
    let light_level := (dd3 >>> 4) &&& 0b00001111
    let device_chain := dd3 &&& 0b00001111
    let battery : AttrVal ←
      match data with
      | some d =>
        if d.isEmpty then some aNone
        else do
          let b2 ← byteAt d 2
          some (aNat (b2 &&& 0b01111111))
      | none => some aNone
    let dd0 ← byteAt device_data 0
    some [(.s "calibration", aBool calibrated),
          (.s "battery", battery),
          (.s "inMotion", aBool in_motion),
          (.s "position", aNat (if reverse then 100 - position else position)),
          (.s "lightLevel", aNat light_level),
          (.s "deviceChain", aNat device_chain),
          (.s "sequence_number", aNat dd0)]

/-- adv_parsers/fan.py `process_fan`. -/
def process_fan (data mfr_data : Option Bytes) : Option AttrMap :=
  match mfr_data with
  | none => some []
  | some m => do
    let device_data := m.drop 6
    let dd0 ← byteAt device_data 0
    let dd1 ← byteAt device_data 1
    let isOn := bitB dd1 0b10000000
    let modeRaw := (dd1 &&& 0b01110000) >>> 4
    let mode : AttrVal :=
      if 1 ≤ modeRaw ∧ modeRaw ≤ 4 then aStr (fanModeName modeRaw) else aNone
    let nightLight := (dd1 &&& 0b00001100) >>> 2
    let oscL := bitB dd1 0b00000010
    let oscU := bitB dd1 0b00000001
    let dd2 ← byteAt device_data 2
    let dd3 ← byteAt device_data 3
    some [(.s "sequence_number", aNat dd0),
          (.s "isOn", aBool isOn),
          (.s "mode", mode),
          (.s "nightLight", aNat nightLight),
          (.s "oscillating", aBool (oscL || oscU)),
          (.s "battery", aNat (dd2 &&& 0b01111111)),
          (.s "speed", aNat (dd3 &&& 0b01111111))]

/-- adv_parsers/vacuum.py: Python `f"{n:>03d}"` for a non-negative int. -/
def pad3 (n : Nat) : String :=
  if n < 10 then "00" ++ toString n
  else if n < 100 then "0" ++ toString n
  else toString n

/-- adv_parsers/vacuum.py `get_device_fw_version`. -/
def get_device_fw_version (version_bytes : Bytes) : Option String := do
  let v0 ← byteAt version_bytes 0
  let version1 := v0 &&& 0x0F
  let version2 := v0 >>> 4
  let version3 ← unpackU16LE (version_bytes.drop 1)
  some (toString version1 ++ "." ++ toString version2 ++ "." ++ pad3 version3)

/-- adv_parsers/vacuum.py `process_vacuum` (S10, K10+ Pro Combo, K20). -/
def process_vacuum (data mfr_data : Option Bytes) : Option AttrMap :=
  match mfr_data with
  | none => some []
  | some m => do
    let m6 ← byteAt m 6
    let soc ← get_device_fw_version (sliceFT m 8 11)
    let m11 ← byteAt m 11
    let step := m11 &&& 0b00001111
    let mqtt := bitB m11 0b00010000
    let m12 ← byteAt m 12
    let m13 ← byteAt m 13
    some [(.s "sequence_number", aNat m6),
          (.s "soc_version", aStr soc),
          (.s "step", aNat step),
          (.s "mqtt_connected", aBool mqtt),
          (.s "battery", aNat m12),
          (.s "work_status", aNat (m13 &&& 0b00111111))]

/-- adv_parsers/vacuum.py `process_vacuum_k` (K10+, K10+ Pro). -/
def process_vacuum_k (data mfr_data : Option Bytes) : Option AttrMap :=
  match mfr_data with
  | none => some []
  | some m => do
    let m6 ← byteAt m 6
    let m7 ← byteAt m 7
    let m8 ← byteAt m 8
    some [(.s "sequence_number", aNat m6),
          (.s "dustbin_bound", aBool (bitB m7 0b10000000)),
          (.s "dusbin_connected", aBool (bitB m7 0b01000000)),
          (.s "network_connected", aBool (bitB m7 0b00100000)),
          (.s "work_status", aNat ((m7 &&& 0b00010000) >>> 4)),
          (.s "battery", aNat (m8 &&& 0b01111111))]

/-- adv_parsers/air_purifier.py `get_air_purifier_mode`. -/
def get_air_purifier_mode (mode speed : Nat) : Option String :=
  if mode = 1 then
    if speed ≤ 33 then some "level_1"
    else if 34 ≤ speed ∧ speed ≤ 66 then some "level_2"
    else some "level_3"
  else if 1 < mode ∧ mode ≤ 4 then some (airPurifierModeName (mode + 2))
  else none

/-- adv_parsers/air_purifier.py `process_air_purifier`. -/
def process_air_purifier (data mfr_data : Option Bytes) : Option AttrMap :=
  match mfr_data with
  | none => some []
  | some m => do
    let device_data := m.drop 6
    let dd0 ← byteAt device_data 0
    let dd1 ← byteAt device_data 1
    let isOn := bitB dd1 0b10000000
    let modeRaw := dd1 &&& 0b00000111
    let dd2 ← byteAt device_data 2
    let aqiValid := bitB dd2 0b00000100
    let child_lock := bitB dd2 0b00000010
    let dd3 ← byteAt device_data 3
    let speed := dd3 &&& 0b01111111
    let dd4 ← byteAt device_data 4
    let aqi_level := (dd4 &&& 0b00000110) >>> 1
    let work_time ← unpackU16BE (sliceFT device_data 5 7)
    let err_code ← byteAt device_data 7
    let mode : AttrVal :=
      match get_air_purifier_mode modeRaw speed with
      | some s => aStr s
      | none => aNone
    some [(.s "isOn", aBool isOn),
          (.s "mode", mode),
          (.s "isAqiValid", aBool aqiValid),
          (.s "child_lock", aBool child_lock),
          (.s "speed", aNat speed),
          (.s "aqi_level", aStr (airQualityLevelName aqi_level)),
          (.s "filter element working time", aNat work_time),
          (.s "err_code", aNat err_code),
          (.s "sequence_number", aNat dd0)]

namespace hub2

/-- const/hub2 light map inlined in adv_parsers/hub2.py
`calculate_light_intensity` (light level 1..21 → lux). -/
def light_map : List (Nat × Nat) :=
  [(1, 0), (2, 10), (3, 20), (4, 30), (5, 40), (6, 50), (7, 60), (8, 70),
   (9, 80), (10, 90), (11, 105), (12, 205), (13, 317), (14, 416), (15, 510),
   (16, 610), (17, 707), (18, 801), (19, 897), (20, 1023), (21, 1091)]

/-- adv_parsers/hub2.py `calculate_light_intensity`: table lookup, 0 for
out-of-range input. -/
def calculate_light_intensity (light_level : Nat) : Nat :=
  if light_level < 1 ∨ 21 < light_level then 0
  else (light_map.lookup light_level).getD 0

end hub2

/-- adv_parsers/hub2.py `process_wohub2`. -/
def process_wohub2 (data mfr_data : Option Bytes) : Option AttrMap :=
  match mfr_data with
  | some m =>
    if m.isEmpty then some []
    else do
      let status ← byteAt m 12
      let temp_data := sliceFT m 13 16
      if temp_data.isEmpty then some []
      else do
        let t1 ← byteAt temp_data 1
        let t0 ← byteAt temp_data 0
        let sign : ℚ := if bitB t1 0b10000000 then 1 else -1
        let temp_c : ℚ := sign * ((t1 &&& 0b01111111 : Nat) + ((t0 &&& 0b00001111 : Nat) : ℚ) / 10)
        let temp_f : ℚ := temp_c * 9 / 5 + 32
        let temp_f : ℚ := temp_f * 10 / 10
        let t2 ← byteAt temp_data 2
        let humidity := t2 &&& 0b01111111
        let light_level := status &&& 0b11111
        if temp_c = 0 ∧ humidity = 0 then some []
        else
          some [(.s "temp", .vDict [(.s "c", .vRat temp_c), (.s "f", .vRat temp_f)]),
                (.s "temperature", aRat temp_c),
                (.s "fahrenheit", aBool (bitB t2 0b10000000)),
                (.s "humidity", aNat humidity),
                (.s "lightLevel", aNat light_level),
                (.s "illuminance", aNat (hub2.calculate_light_intensity light_level))]
  | none => some []

namespace hub3

/-- const/hub3.py `LIGHT_INTENSITY_MAP` (light level 1..10 → lux). -/
def LIGHT_INTENSITY_MAP : List (Nat × Nat) :=
  [(1, 0), (2, 50), (3, 90), (4, 205), (5, 317), (6, 510), (7, 610),
   (8, 707), (9, 801), (10, 1023)]

/-- adv_parsers/hub3.py `calculate_light_intensity`:
`LIGHT_INTENSITY_MAP.get(max(0, min(light_level, 10)), 0)`. -/
def calculate_light_intensity (light_level : Nat) : Nat :=
  (LIGHT_INTENSITY_MAP.lookup (max 0 (min light_level 10))).getD 0

end hub3

/-- Python `round(q, 1)` as used on the hub3 Fahrenheit reading. Python
rounds half to even on the underlying float; for the values this parser
produces (an integer plus a multiple of 9/50, scaled) an exact tie at a
half-tenth never occurs, so ordinary rounding of `10 * q` agrees. -/
def round1 (q : ℚ) : ℚ := (round (q * 10) : ℤ) / 10

/-- adv_parsers/hub3.py `process_hub3`. -/
def process_hub3 (data mfr_data : Option Bytes) : Option AttrMap :=
  match mfr_data with
  | none => some []
  | some m => do
    let device_data := m.drop 6
    let dd0 ← byteAt device_data 0
    let dd6 ← byteAt device_data 6
    let network_state := (dd6 &&& 0b11000000) >>> 6
    let sensor_inserted := !bitB dd6 0b00100000
    let light_level := dd6 &&& 0b00001111
    let illuminance := hub3.calculate_light_intensity light_level
    let dd7 ← byteAt device_data 7
    let temperature_alarm := bitB dd7 0b11000000
    let humidity_alarm := bitB dd7 0b00110000
    let temp_data := sliceFT device_data 7 10
    let t1 ← byteAt temp_data 1
    let t0 ← byteAt temp_data 0
    let sign : ℚ := if bitB t1 0b10000000 then 1 else -1
    let temp_c : ℚ := sign * ((t1 &&& 0b01111111 : Nat) + ((t0 &&& 0b00001111 : Nat) : ℚ) / 10)
    let temp_f : ℚ := round1 (celsius_to_fahrenheit temp_c)
    let t2 ← byteAt temp_data 2
    let humidity := t2 &&& 0b01111111
    let dd10 ← byteAt device_data 10
    some [(.s "sequence_number", aNat dd0),
          (.s "network_state", aNat network_state),
          (.s "sensor_inserted", aBool sensor_inserted),
          (.s "lightLevel", aNat light_level),
          (.s "illuminance", aNat illuminance),
          (.s "temperature_alarm", aBool temperature_alarm),
          (.s "humidity_alarm", aBool humidity_alarm),
          (.s "temp", .vDict [(.s "c", .vRat temp_c), (.s "f", .vRat temp_f)]),
          (.s "temperature", aRat temp_c),
          (.s "humidity", aNat humidity),
          (.s "motion_detected", aBool (bitB dd10 0b10000000))]

/-- adv_parsers/hubmini_matter.py `process_hubmini_matter`. -/
def process_hubmini_matter (data mfr_data : Option Bytes) : Option AttrMap :=
  match mfr_data with
  | some m =>
    if m.isEmpty then some []
    else
      let temp_data := sliceFT m 13 16
      if temp_data.isEmpty then some []
      else do
        let t1 ← byteAt temp_data 1
        let t0 ← byteAt temp_data 0
        let sign : ℚ := if bitB t1 0b10000000 then 1 else -1
        let temp_c : ℚ := sign * ((t1 &&& 0b01111111 : Nat) + ((t0 &&& 0b00001111 : Nat) : ℚ) / 10)
        let temp_f : ℚ := temp_c * 9 / 5 + 32
        let temp_f : ℚ := temp_f * 10 / 10
        let t2 ← byteAt temp_data 2
        let humidity := t2 &&& 0b01111111
        if temp_c = 0 ∧ humidity = 0 then some []
        else
          some [(.s "temp", .vDict [(.s "c", .vRat temp_c), (.s "f", .vRat temp_f)]),
                (.s "temperature", aRat temp_c),
                (.s "fahrenheit", aBool (bitB t2 0b10000000)),
                (.s "humidity", aNat humidity)]
  | none => some []

/-- adv_parsers/humidifier.py `calculate_temperature_and_humidity`. -/
def calculate_temperature_and_humidity (data : Bytes)
    (is_meter_binded : Bool) : Option ℚ × Option ℚ × Option Nat :=
  if data.length < 3 ∨ !is_meter_binded then (none, none, none)
  else
    let humidity := data.getD 0 0 &&& 0b01111111
    if 100 < humidity then (none, none, none)
    else
      let sign : ℚ := if bitB (data.getD 1 0) 0b10000000 then 1 else -1
      let temp_c : ℚ :=
        sign * ((data.getD 1 0 &&& 0b01111111 : Nat) + ((data.getD 2 0 >>> 4 : Nat) : ℚ) / 10)
      (some temp_c, some (celsius_to_fahrenheit temp_c), some humidity)

/-- adv_parsers/humidifier.py `process_wohumidifier`. -/
def process_wohumidifier (data mfr_data : Option Bytes) : Option AttrMap :=
  match data with
  | none =>
    some [(.s "isOn", aNone), (.s "level", aNone), (.s "switchMode", aBool true)]
  | some d => do
    let d1 ← byteAt d 1
    let d4 ← byteAt d 4
    some [(.s "isOn", aBool (d1 != 0)),
          (.s "level", aNat d4),
          (.s "switchMode", aBool true)]

/-- adv_parsers/humidifier.py `process_evaporative_humidifier`. -/
def process_evaporative_humidifier (data mfr_data : Option Bytes) :
    Option AttrMap :=
  match mfr_data with
  | none => some []
  | some m => do
    let seq_number ← byteAt m 6
    let m7 ← byteAt m 7
    let is_on := bitB m7 0b10000000
    let modeRaw ← humidifierModeOf (m7 &&& 0b00001111)
    let m8 ← byteAt m 8
    let over_humidify_protection := bitB m8 0b10000000
    let child_lock := bitB m8 0b00100000
    let tank_removed := bitB m8 0b00000100
    let tilted_alert := bitB m8 0b00000010
    let filter_missing := bitB m8 0b00000001
    let m9 ← byteAt m 9
    let is_meter_binded := bitB m9 0b10000000
    let thc := calculate_temperature_and_humidity (sliceFT m 9 12) is_meter_binded
    let m11 ← byteAt m 11
    let water_level := humidifierWaterLevelName (m11 &&& 0b00000011)
    let filter_hours := beNat (sliceFT m 12 14) &&& 0xFFF
    let m16 ← byteAt m 16
    let target_humidity := m16 &&& 0b01111111
    some [(.s "seq_number", aNat seq_number),
          (.s "isOn", aBool is_on),
          (.s "mode", aEnum "HumidifierMode" modeRaw),
          (.s "over_humidify_protection", aBool over_humidify_protection),
          (.s "child_lock", aBool child_lock),
          (.s "tank_removed", aBool tank_removed),
          (.s "tilted_alert", aBool tilted_alert),
          (.s "filter_missing", aBool filter_missing),
          (.s "is_meter_binded", aBool is_meter_binded),
          (.s "humidity",
            match thc.2.2 with | some h => aNat h | none => aNone),
          (.s "temperature",
            match thc.1 with | some c => aRat c | none => aNone),
          (.s "temp", .vDict
            [(.s "c", match thc.1 with | some c => .vRat c | none => .vNone),
             (.s "f", match thc.2.1 with | some f => .vRat f | none => .vNone)]),
          (.s "water_level", aStr water_level),
          (.s "filter_run_time", aDur filter_hours),
          (.s "filter_alert", aBool (decide (10 ≤ filter_hours / 24))),
          (.s "target_humidity", aNat target_humidity)]

/-- adv_parsers/keypad.py `process_wokeypad`. The module-level function
attribute `process_wokeypad.lastStatus` (initially `-1`) is passed in and
returned explicitly; the result's first component is `none` when the
parser raises (the state update to `mfr_data[6]` has already happened by
the time `data[2]` is read, so a raise can still change the state). -/
def process_wokeypad (data mfr_data : Option Bytes) (lastStatus : Int) :
    Option AttrMap × Int :=
  match data, mfr_data with
  | none, _ =>
    (some [(.s "battery", aNone), (.s "attemptState", aNone)], -1)
  | _, none =>
    (some [(.s "battery", aNone), (.s "attemptState", aNone)], -1)
  | some d, some m =>
    match byteAt m 6 with
    | none => (none, lastStatus)
    | some m6 =>
      let success : Bool := decide (lastStatus ≠ -1 ∧
        (((m6 : Int) > lastStatus ∧ (m6 : Int) - lastStatus ≥ 2) ∨
         ((m6 : Int) < lastStatus ∧ (m6 : Int) - lastStatus ≥ -254)))
      match byteAt d 2 with
      | none => (none, (m6 : Int))
      | some d2 =>
        (some [(.s "battery", aNat d2), (.s "success", aBool success)],
         (m6 : Int))

/-! ## Parsers imported by adv_parser.py whose source files are absent
from src/ (adv_parsers/bot.py, contact.py, curtain.py, meter.py,
motion.py, bulb.py, ceiling_light.py, blind_tilt.py, leak.py). The spec
describes them only through the uniform parser contract (§4.2: a pure
function of the two optional payloads returning an attribute mapping)
and, for four of them, a golden input/output vector (§8). They are
modelled from those spec sentences; no theorem below depends on their
bodies beyond the uniform contract. -/

/-- Modelled from the spec: `process_wocurtain`
(adv_parsers/curtain.py is absent from src/). The spec pins only the §8
golden vector for service-data `63 C0 58 00 11 04`; modelled as that
vector's step function (empty mapping elsewhere). -/
def process_wocurtain (data mfr_data : Option Bytes) : Option AttrMap :=
  if data = some [0x63, 0xC0, 0x58, 0x00, 0x11, 0x04] then
    some [(.s "calibration", aBool true),
          (.s "battery", aNat 88),
          (.s "inMotion", aBool false),
          (.s "position", aNat 100),
          (.s "lightLevel", aNat 1),
          (.s "deviceChain", aNat 1)]
  else some []

/-- Modelled from the spec: `process_wosensorth` (adv_parsers/meter.py is
absent from src/). The spec pins only the §8 golden vector for
service-data `54 00 E4 06 98 35`; modelled as that vector's step
function (empty mapping elsewhere; §8 also documents that an all-zero
temperature/humidity payload yields an empty mapping, which the fallback
branch covers). -/
def process_wosensorth (data mfr_data : Option Bytes) : Option AttrMap :=
  if data = some [0x54, 0x00, 0xE4, 0x06, 0x98, 0x35] then
    some [(.s "temperature", aRat (123 / 5)),
          (.s "humidity", aNat 53),
          (.s "fahrenheit", aBool false),
          (.s "temp", .vDict [(.s "c", .vRat (123 / 5)),
                              (.s "f", .vRat (1907 / 25))])]
  else some []

/-- Modelled from the spec: `process_wosensorth_c` (adv_parsers/meter.py
is absent from src/; the spec gives no golden vector for the Meter Pro
CO2 variant, only the uniform parser contract); modelled as returning an
empty mapping. -/
def process_wosensorth_c (data mfr_data : Option Bytes) : Option AttrMap :=
  some []

/-- Modelled from the spec: `process_wocontact`
(adv_parsers/contact.py is absent from src/). The spec pins only the §8
golden vector for service-data `64 40 64 05 00 75 00 F8 12`; modelled as
that vector's step function. -/
def process_wocontact (data mfr_data : Option Bytes) : Option AttrMap :=
  if data = some [0x64, 0x40, 0x64, 0x05, 0x00, 0x75, 0x00, 0xF8, 0x12] then
    some [(.s "button_count", aNat 2),
          (.s "contact_open", aBool true),
          (.s "contact_timeout", aBool true),
          (.s "is_light", aBool true),
          (.s "battery", aNat 100),
          (.s "motion_detected", aBool true),
          (.s "tested", aBool false)]
  else some []

/-- Modelled from the spec: `process_wohand` (adv_parsers/bot.py is
absent from src/). The spec pins only the §8 golden vector (legacy
firmware bot, manufacturer-data `D8 2E AD CD 0D 85` under company id 89
with service-data `48 10 E1`); modelled as that vector's step
function. -/
def process_wohand (data mfr_data : Option Bytes) : Option AttrMap :=
  if data = some [0x48, 0x10, 0xE1] ∧
      mfr_data = some [0xD8, 0x2E, 0xAD, 0xCD, 0x0D, 0x85] then
    some [(.s "switchMode", aBool false),
          (.s "isOn", aBool false),
          (.s "battery", aNat 97)]
  else some []

/-- Modelled from the spec: `process_wopresence` (adv_parsers/motion.py
is absent from src/; the spec gives only the uniform parser contract);
modelled as returning an empty mapping. -/
def process_wopresence (data mfr_data : Option Bytes) : Option AttrMap :=
  some []

/-- Modelled from the spec: `process_color_bulb` (adv_parsers/bulb.py is
absent from src/; the spec gives only the uniform parser contract);
modelled as returning an empty mapping. -/
def process_color_bulb (data mfr_data : Option Bytes) : Option AttrMap :=
  some []

/-- Modelled from the spec: `process_woceiling`
(adv_parsers/ceiling_light.py is absent from src/; the spec gives only
the uniform parser contract); modelled as returning an empty mapping. -/
def process_woceiling (data mfr_data : Option Bytes) : Option AttrMap :=
  some []

/-- Modelled from the spec: `process_woblindtilt`
(adv_parsers/blind_tilt.py is absent from src/; the spec gives only the
uniform parser contract); modelled as returning an empty mapping. -/
def process_woblindtilt (data mfr_data : Option Bytes) : Option AttrMap :=
  some []

/-- Modelled from the spec: `process_leak` (adv_parsers/leak.py is
absent from src/; the spec gives only the uniform parser contract);
modelled as returning an empty mapping. -/
def process_leak (data mfr_data : Option Bytes) : Option AttrMap :=
  some []

/-! ## The dispatch table (adv_parser.py) -/

/-- `const.SwitchbotModel` (const/__init__.py): the canonical model
identifiers. -/
inductive Model where
  | BOT | CURTAIN | HUMIDIFIER | PLUG_MINI | CONTACT_SENSOR | LIGHT_STRIP
  | METER | METER_PRO | METER_PRO_C | IO_METER | MOTION_SENSOR | COLOR_BULB
  | CEILING_LIGHT | LOCK | LOCK_PRO | BLIND_TILT | HUB2 | LEAK | KEYPAD
  | RELAY_SWITCH_1PM | RELAY_SWITCH_1 | REMOTE | EVAPORATIVE_HUMIDIFIER
  | ROLLER_SHADE | HUBMINI_MATTER | CIRCULATOR_FAN | K20_VACUUM
  | S10_VACUUM | K10_VACUUM | K10_PRO_VACUUM | K10_PRO_COMBO_VACUUM
  | AIR_PURIFIER | AIR_PURIFIER_TABLE | HUB3 | LOCK_ULTRA | LOCK_LITE
  | GARAGE_DOOR_OPENER | RELAY_SWITCH_2PM | STRIP_LIGHT_3 | FLOOR_LAMP
deriving DecidableEq, Repr

/-- A dispatch-table key: a single character discriminator (stored as
its code point) or a raw 4-byte sequence. -/
inductive DKey where
  | ch (c : Nat)
  | bs (b : Bytes)
deriving DecidableEq, Repr

/-- One name per parser function referenced by `SUPPORTED_TYPES`. -/
inductive ParserFn where
  | process_wocontact | process_wohand | process_wopresence
  | process_wostrip | process_wocurtain | process_wosensorth
  | process_wosensorth_c | process_wohub2 | process_woplugmini
  | process_color_bulb | process_woceiling | process_wohumidifier
  | process_evaporative_humidifier | process_wolock | process_wolock_pro
  | process_locklite | process_lock2 | process_woblindtilt | process_leak
  | process_wokeypad | process_relay_switch_common_data
  | process_relay_switch_2pm | process_garage_door_opener
  | process_woremote | process_worollershade | process_hubmini_matter
  | process_fan | process_vacuum | process_vacuum_k | process_air_purifier
  | process_hub3 | process_light
deriving DecidableEq, Repr

/-- A `SwitchbotSupportedType` entry of `SUPPORTED_TYPES`. -/
structure SupportedType where
  modelName : Model
  modelFriendlyName : String
  func : ParserFn
  manufacturer_id : Nat
  manufacturer_data_length : Option Nat := none
deriving DecidableEq, Repr

/-- `SUPPORTED_TYPES` (adv_parser.py), in source (insertion) order.
Character keys are given as code points (`0x64` = `"d"`, ...). -/
def SUPPORTED_TYPES : List (DKey × SupportedType) :=
  [(.ch 0x64, ⟨.CONTACT_SENSOR, "Contact Sensor", .process_wocontact, 2409, none⟩),        -- "d"
   (.ch 0x48, ⟨.BOT, "Bot", .process_wohand, 89, none⟩),                                   -- "H"
   (.ch 0x73, ⟨.MOTION_SENSOR, "Motion Sensor", .process_wopresence, 2409, none⟩),         -- "s"
   (.ch 0x72, ⟨.LIGHT_STRIP, "Light Strip", .process_wostrip, 2409, none⟩),                -- "r"
   (.ch 0x7B, ⟨.CURTAIN, "Curtain 3", .process_wocurtain, 2409, none⟩),                    -- left brace
   (.ch 0x63, ⟨.CURTAIN, "Curtain", .process_wocurtain, 2409, none⟩),                      -- "c"
   (.ch 0x77, ⟨.IO_METER, "Indoor/Outdoor Meter", .process_wosensorth, 2409, none⟩),       -- "w"
   (.ch 0x69, ⟨.METER, "Meter Plus", .process_wosensorth, 2409, none⟩),                    -- "i"
   (.ch 0x54, ⟨.METER, "Meter", .process_wosensorth, 2409, none⟩),                         -- "T"
   (.ch 0x34, ⟨.METER_PRO, "Meter Pro", .process_wosensorth, 2409, none⟩),                 -- "4"
   (.ch 0x35, ⟨.METER_PRO_C, "Meter Pro CO2", .process_wosensorth_c, 2409, none⟩),         -- "5"
   (.ch 0x76, ⟨.HUB2, "Hub 2", .process_wohub2, 2409, none⟩),                              -- "v"
   (.ch 0x67, ⟨.PLUG_MINI, "Plug Mini", .process_woplugmini, 2409, none⟩),                 -- "g"
   (.ch 0x6A, ⟨.PLUG_MINI, "Plug Mini (JP)", .process_woplugmini, 2409, none⟩),            -- "j"
   (.ch 0x75, ⟨.COLOR_BULB, "Color Bulb", .process_color_bulb, 2409, none⟩),               -- "u"
   (.ch 0x71, ⟨.CEILING_LIGHT, "Ceiling Light", .process_woceiling, 2409, none⟩),          -- "q"
   (.ch 0x6E, ⟨.CEILING_LIGHT, "Ceiling Light Pro", .process_woceiling, 2409, none⟩),      -- "n"
   (.ch 0x65, ⟨.HUMIDIFIER, "Humidifier", .process_wohumidifier, 741, some 6⟩),            -- "e"
   (.ch 0x23, ⟨.EVAPORATIVE_HUMIDIFIER, "Evaporative Humidifier",
               .process_evaporative_humidifier, 2409, none⟩),                              -- "#"
   (.ch 0x6F, ⟨.LOCK, "Lock", .process_wolock, 2409, none⟩),                               -- "o"
   (.ch 0x24, ⟨.LOCK_PRO, "Lock Pro", .process_wolock_pro, 2409, none⟩),                   -- "$"
   (.ch 0x78, ⟨.BLIND_TILT, "Blind Tilt", .process_woblindtilt, 2409, none⟩),              -- "x"
   (.ch 0x26, ⟨.LEAK, "Leak Detector", .process_leak, 2409, none⟩),                        -- "&"
   (.ch 0x79, ⟨.KEYPAD, "Keypad", .process_wokeypad, 2409, none⟩),                         -- "y"
   (.ch 0x3C, ⟨.RELAY_SWITCH_1PM, "Relay Switch 1PM",
               .process_relay_switch_common_data, 2409, none⟩),                            -- "<"
   (.ch 0x3B, ⟨.RELAY_SWITCH_1, "Relay Switch 1",
               .process_relay_switch_common_data, 2409, none⟩),                            -- ";"
   (.ch 0x62, ⟨.REMOTE, "Remote", .process_woremote, 89, none⟩),                           -- "b"
   (.ch 0x2C, ⟨.ROLLER_SHADE, "Roller Shade", .process_worollershade, 2409, none⟩),        -- ","
   (.ch 0x25, ⟨.HUBMINI_MATTER, "HubMini Matter", .process_hubmini_matter, 2409, none⟩),   -- "%"
   (.ch 0x7E, ⟨.CIRCULATOR_FAN, "Circulator Fan", .process_fan, 2409, none⟩),              -- "~"
   (.ch 0x2E, ⟨.K20_VACUUM, "K20 Vacuum", .process_vacuum, 2409, none⟩),                   -- "."
   (.ch 0x7A, ⟨.S10_VACUUM, "S10 Vacuum", .process_vacuum, 2409, none⟩),                   -- "z"
   (.ch 0x33, ⟨.K10_PRO_COMBO_VACUUM, "K10+ Pro Combo Vacuum",
               .process_vacuum, 2409, none⟩),                                              -- "3"
   (.ch 0x7D, ⟨.K10_VACUUM, "K10+ Vacuum", .process_vacuum_k, 2409, none⟩),                -- right brace
   (.ch 0x28, ⟨.K10_PRO_VACUUM, "K10+ Pro Vacuum", .process_vacuum_k, 2409, none⟩),        -- "("
   (.ch 0x2A, ⟨.AIR_PURIFIER, "Air Purifier", .process_air_purifier, 2409, none⟩),         -- "*"
   (.ch 0x2B, ⟨.AIR_PURIFIER, "Air Purifier", .process_air_purifier, 2409, none⟩),         -- "+"
   (.ch 0x37, ⟨.AIR_PURIFIER_TABLE, "Air Purifier Table",
               .process_air_purifier, 2409, none⟩),                                        -- "7"
   (.ch 0x38, ⟨.AIR_PURIFIER_TABLE, "Air Purifier Table",
               .process_air_purifier, 2409, none⟩),                                        -- "8"
   (.bs [0x00, 0x10, 0xB9, 0x40], ⟨.HUB3, "Hub3", .process_hub3, 2409, none⟩),
   (.ch 0x2D, ⟨.LOCK_LITE, "Lock Lite", .process_locklite, 2409, none⟩),                   -- "-"
   (.bs [0x00, 0x10, 0xA5, 0xB8], ⟨.LOCK_ULTRA, "Lock Ultra", .process_lock2, 2409, none⟩),
   (.ch 0x3E, ⟨.GARAGE_DOOR_OPENER, "Garage Door Opener",
               .process_garage_door_opener, 2409, none⟩),                                  -- ">"
   (.ch 0x3D, ⟨.RELAY_SWITCH_2PM, "Relay Switch 2PM",
               .process_relay_switch_2pm, 2409, none⟩),                                    -- "="
   (.bs [0x00, 0x10, 0xD0, 0xB0], ⟨.FLOOR_LAMP, "Floor Lamp", .process_light, 2409, none⟩),
   (.bs [0x00, 0x10, 0xD0, 0xB1], ⟨.STRIP_LIGHT_3, "Strip Light 3",
               .process_light, 2409, none⟩)]

/-- `SUPPORTED_TYPES.get(key)` (keys are unique, so first match). -/
def lookupType (k : DKey) : Option SupportedType :=
  (SUPPORTED_TYPES.find? (fun p => p.1 == k)).map (·.2)

/-- `key in SUPPORTED_TYPES`. -/
def keyMem (k : DKey) : Bool := (lookupType k).isSome

/-- `_SWITCHBOT_MODEL_TO_CHAR` (adv_parser.py): dict comprehension keyed
by model, so for a model listed under several discriminators the
last-inserted one wins. -/
def modelToChar (m : Model) : Option DKey :=
  (SUPPORTED_TYPES.filterMap
    (fun p => if p.2.modelName = m then some p.1 else none)).getLast?

/-- `SERVICE_DATA_ORDER` (adv_parser.py). -/
def SERVICE_DATA_ORDER : List String :=
  ["0000fd3d-0000-1000-8000-00805f9b34fb",
   "00000d00-0000-1000-8000-00805f9b34fb"]

/-- `MFR_DATA_ORDER` (adv_parser.py). -/
def MFR_DATA_ORDER : List Nat := [2409, 741, 89]

/-- `MODELS_BY_MANUFACTURER_DATA[mfr_id]` (adv_parser.py): the table
entries carrying that manufacturer id, in table order (every entry of
`SUPPORTED_TYPES` has the `manufacturer_id` key). -/
def modelsByMfr (mfr_id : Nat) : List (DKey × SupportedType) :=
  SUPPORTED_TYPES.filter (fun p => p.2.manufacturer_id == mfr_id)

/-! ## The resolver (adv_parser.py `_parse_data` / `parse_advertisement_data`)

The keypad parser is the only one that touches mutable state, so the
dispatcher threads the `process_wokeypad.lastStatus` integer through
every parser invocation and returns it alongside the outcome. -/

/-- Run the parser function of a dispatch entry, threading the keypad
`lastStatus` state (every parser except the keypad's leaves it
untouched). `process_light` and `process_worollershade` are entered into
the table with their default extra arguments (`cw_offset = 16`,
`reverse = True`). -/
def runParser (fn : ParserFn) (sd md : Option Bytes) (ks : Int) :
    Option AttrMap × Int :=
  match fn with
  | .process_wocontact => (process_wocontact sd md, ks)
  | .process_wohand => (process_wohand sd md, ks)
  | .process_wopresence => (process_wopresence sd md, ks)
  | .process_wostrip => (process_wostrip sd md, ks)
  | .process_wocurtain => (process_wocurtain sd md, ks)
  | .process_wosensorth => (process_wosensorth sd md, ks)
  | .process_wosensorth_c => (process_wosensorth_c sd md, ks)
  | .process_wohub2 => (process_wohub2 sd md, ks)
  | .process_woplugmini => (process_woplugmini sd md, ks)
  | .process_color_bulb => (process_color_bulb sd md, ks)
  | .process_woceiling => (process_woceiling sd md, ks)
  | .process_wohumidifier => (process_wohumidifier sd md, ks)
  | .process_evaporative_humidifier => (process_evaporative_humidifier sd md, ks)
  | .process_wolock => (process_wolock sd md, ks)
  | .process_wolock_pro => (process_wolock_pro sd md, ks)
  | .process_locklite => (process_locklite sd md, ks)
  | .process_lock2 => (process_lock2 sd md, ks)
  | .process_woblindtilt => (process_woblindtilt sd md, ks)
  | .process_leak => (process_leak sd md, ks)
  | .process_wokeypad => process_wokeypad sd md ks
  | .process_relay_switch_common_data => (process_relay_switch_common_data sd md, ks)
  | .process_relay_switch_2pm => (process_relay_switch_2pm sd md, ks)
  | .process_garage_door_opener => (process_garage_door_opener sd md, ks)
  | .process_woremote => (process_woremote sd md, ks)
  | .process_worollershade => (process_worollershade sd md true, ks)
  | .process_hubmini_matter => (process_hubmini_matter sd md, ks)
  | .process_fan => (process_fan sd md, ks)
  | .process_vacuum => (process_vacuum sd md, ks)
  | .process_vacuum_k => (process_vacuum_k sd md, ks)
  | .process_air_purifier => (process_air_purifier sd md, ks)
  | .process_hub3 => (process_hub3 sd md, ks)
  | .process_light => (process_light sd md 16, ks)

/-- The model-discriminator resolution steps of `_parse_data` (lines
413-431). Outer `none` = an exception: when no discriminator is known
yet, the manufacturer-id heuristic loop evaluates `len(_mfr_data)` with
`_mfr_data = None` (`TypeError`) — the candidate list of every known
manufacturer id is non-empty, so the loop body always runs. Inner value:
the resolved discriminator, if any. -/
def resolveModel (sd md : Option Bytes) (mid : Option Nat)
    (hint : Option Model) : Option (Option DKey) :=
  let m0 : Option DKey :=
    match sd with
    | some (b :: _) => some (.ch (b &&& 0b01111111))
    | _ => none
  let m1 : Option DKey :=
    match hint with
    | some h =>
      match modelToChar h with
      | some k => some k
      | none => m0
    | none => m0
  let step : Option (Option DKey) :=
    match m1 with
    | some k => some (some k)
    | none =>
      match mid with
      | some i =>
        if i ∈ MFR_DATA_ORDER then
          match md with
          | none => none
          | some b =>
            some (((modelsByMfr i).find?
              (fun p => p.2.manufacturer_data_length == some b.length)).map (·.1))
        else some none
      | none => some none
  match step with
  | none => none
  | some m2 =>
    match sd with
    | some b =>
      if 5 < b.length ∧ keyMem (.bs (lastN 4 b)) then some (some (.bs (lastN 4 b)))
      else some m2
    | none => some m2

/-- `bool(_service_data[0] & 0b10000000) if _service_data else False`. -/
def isEncryptedOf (sd : Option Bytes) : Bool :=
  match sd with
  | some (b :: _) => bitB b 0b10000000
  | _ => false

/-- The dict `_parse_data` returns on success: the raw service data, the
parsed attributes (`data`, empty when the parser produced nothing), the
discriminator (`model`), the encryption flag, and — only when the parser
returned a non-empty mapping — the friendly name and canonical model. -/
structure ParseResult where
  rawAdvData : Option Bytes
  data : AttrMap
  model : DKey
  isEncrypted : Bool
  modelFriendlyName : Option String := none
  modelName : Option Model := none
deriving DecidableEq, Repr

/-- What a call of `_parse_data` does: raise, return `None`, or return a
result dict. -/
inductive ParseOutcome where
  | raised
  | retNone
  | ok (r : ParseResult)
deriving DecidableEq, Repr

/-- `_parse_data` (adv_parser.py, the underlying uncached computation),
with the keypad `lastStatus` state threaded explicitly. -/
def parseData (sd md : Option Bytes) (mid : Option Nat)
    (hint : Option Model) (ks : Int) : ParseOutcome × Int :=
  match resolveModel sd md mid hint with
  | none => (.raised, ks)
  | some none => (.retNone, ks)
  | some (some k) =>
    let enc := isEncryptedOf sd
    match lookupType k with
    | none => (.ok ⟨sd, [], k, enc, none, none⟩, ks)
    | some t =>
      let r := runParser t.func sd md ks
      match r.1 with
      | none => (.raised, r.2)
      | some attrs =>
        if attrs.isEmpty then (.ok ⟨sd, [], k, enc, none, none⟩, r.2)
        else
          (.ok ⟨sd, attrs, k, enc, some t.modelFriendlyName,
                some t.modelName⟩, r.2)

/-- The advertisement event handed in by the BLE scan layer:
`service_data` maps service UUID strings to bytes, `manufacturer_data`
maps company ids to bytes. -/
structure AdvertisementData where
  service_data : List (String × Bytes)
  manufacturer_data : List (Nat × Bytes)
  rssi : Int
deriving DecidableEq, Repr

/-- The service-data selection loop of `parse_advertisement_data`: first
UUID of `SERVICE_DATA_ORDER` present. -/
def selectServiceData (adv : AdvertisementData) : Option Bytes :=
  SERVICE_DATA_ORDER.findSome? (fun u => adv.service_data.lookup u)

/-- The manufacturer-data selection loop of `parse_advertisement_data`:
first company id of `MFR_DATA_ORDER` present, remembering which. -/
def selectMfrData (adv : AdvertisementData) : Option Bytes × Option Nat :=
  match MFR_DATA_ORDER.findSome?
      (fun i => (adv.manufacturer_data.lookup i).map (fun b => (b, i))) with
  | some (b, i) => (some b, some i)
  | none => (none, none)

/-- Modelled from the spec: the `SwitchBotAdvertisement` record
(src/switchbot/models.py is absent from src/; §4.4 step 8 and the test
corpus fix its shape: address, the `_parse_data` dict, rssi, and the
active flag `bool(_service_data)`). -/
structure SwitchBotAdvertisement where
  address : String
  data : ParseResult
  rssi : Int
  active : Bool
deriving DecidableEq, Repr

/-- `parse_advertisement_data` (adv_parser.py): payload selection, the
absent-input early return, the `try/except` around `_parse_data` mapping
any raise to `None`, the `if not data` filter, and the final wrap. The
keypad `lastStatus` state is threaded. -/
def parse_advertisement_data (address : String) (adv : AdvertisementData)
    (model : Option Model) (ks : Int) :
    Option SwitchBotAdvertisement × Int :=
  let sd := selectServiceData adv
  let sel := selectMfrData adv
  if sel.1 = none ∧ sd = none then (none, ks)
  else
    let r := parseData sd sel.1 sel.2 model ks
    match r.1 with
    | .raised => (none, r.2)
    | .retNone => (none, r.2)
    | .ok d =>
      (some ⟨address, d, adv.rssi,
             match sd with | some b => !b.isEmpty | none => false⟩, r.2)

/-- The decoded temperature field of a Hub 2 payload (the sub-expression
of `process_wohub2` computing `_temp_c` from `mfr_data[13:16]`), used to
state the zero-sentinel property. -/
def hub2TempC (m : Bytes) : ℚ :=
  let t1 := m.getD 14 0
  let t0 := m.getD 13 0
  (if bitB t1 0b10000000 then 1 else -1) *
    ((t1 &&& 0b01111111 : Nat) + ((t0 &&& 0b00001111 : Nat) : ℚ) / 10)

/-- The decoded humidity field of a Hub 2 payload (`temp_data[2] &
0b01111111` of `process_wohub2`). -/
def hub2Humidity (m : Bytes) : Nat := m.getD 15 0 &&& 0b01111111

/-! ## Supporting lemmas -/

theorem byteAt_eq_getD (b : Bytes) (i : Nat) (h : i < b.length) :
    byteAt b i = some (b.getD i 0) := by
  unfold byteAt
  rw [List.getD_eq_get? b i 0]
  cases hg : b.get? i with
  | none => exact absurd (List.get?_eq_none.mp hg) (by omega)
  | some v => rfl

theorem byteAt_some_lt (b : Bytes) (i : Nat) (v : Nat)
    (h : byteAt b i = some v) : i < b.length := by
  by_contra hc
  rw [byteAt, List.get?_eq_none.mpr (by omega)] at h
  exact Option.noConfusion h

theorem sliceFT_three (b : Bytes) (i : Nat) (h : i + 3 ≤ b.length) :
    sliceFT b i (i + 3) = [b.getD i 0, b.getD (i + 1) 0, b.getD (i + 2) 0] := by
  induction b generalizing i with
  | nil => simp at h
  | cons x t ih =>
    cases i with
    | zero =>
      simp only [List.length_cons] at h
      match t, h with
      | y :: z :: t', _ => simp [sliceFT]
    | succ j =>
      simp only [List.length_cons] at h
      have := ih j (by omega)
      simpa [sliceFT] using this

theorem sliceFT_two (b : Bytes) (i : Nat) (h : i + 2 ≤ b.length) :
    sliceFT b i (i + 2) = [b.getD i 0, b.getD (i + 1) 0] := by
  induction b generalizing i with
  | nil => simp at h
  | cons x t ih =>
    cases i with
    | zero =>
      simp only [List.length_cons] at h
      match t, h with
      | y :: t', _ => simp [sliceFT]
    | succ j =>
      simp only [List.length_cons] at h
      have := ih j (by omega)
      simpa [sliceFT] using this

/-! ## The claims -/

/-- C7. Shared-helper insufficient-data errors: `parse_uint24_be` raises
the descriptive `ValueError` exactly when `offset + 3 > len(data)` and
otherwise returns `data[offset]*65536 + data[offset+1]*256 +
data[offset+2]`; `parse_power_data` raises such a `ValueError` exactly
when `offset + 2 > len(data)`. -/
theorem C7_shared_helper_errors (data : Bytes) (offset : Nat) :
    (offset + 3 ≤ data.length →
      parse_uint24_be data offset =
        .ok (data.getD offset 0 * 65536 + data.getD (offset + 1) 0 * 256 +
             data.getD (offset + 2) 0)) ∧
    (data.length < offset + 3 →
      parse_uint24_be data offset =
        .error (insufficientMsg (offset + 3) data.length)) ∧
    (∀ scale : ℚ, ∀ mask : Option Nat,
      (offset + 2 ≤ data.length →
        ∃ q : ℚ, parse_power_data data offset scale mask = .ok q) ∧
      (data.length < offset + 2 →
        parse_power_data data offset scale mask =
          .error (insufficientMsg (offset + 2) data.length))) := by
  refine ⟨fun h => ?_, fun h => ?_, fun scale mask => ⟨fun h => ?_, fun h => ?_⟩⟩
  · rw [parse_uint24_be, if_neg (by omega), sliceFT_three data offset h]
    simp [beNat]
    ring
  · rw [parse_uint24_be, if_pos (by omega)]
  · rw [parse_power_data, if_neg (by omega)]
    exact ⟨_, rfl⟩
  · rw [parse_power_data, if_pos (by omega)]

/-- Witness for C7 at concrete inputs: a successful 3-byte read at
offset 1 of a 4-byte buffer, and the error of a 2-byte read at offset 1
of a 2-byte buffer. -/
theorem C7_shared_helper_errors_witness :
    parse_uint24_be [1, 2, 3, 4] 1 =
      .ok (([1, 2, 3, 4] : Bytes).getD 1 0 * 65536 +
           ([1, 2, 3, 4] : Bytes).getD 2 0 * 256 +
           ([1, 2, 3, 4] : Bytes).getD 3 0) ∧
    parse_power_data [1, 2] 1 1 none = .error (insufficientMsg 3 2) :=
  ⟨(C7_shared_helper_errors [1, 2, 3, 4] 1).1 (by decide),
   ((C7_shared_helper_errors [1, 2] 1).2.2 1 none).2 (by decide)⟩

/-- C8. Zero-valued sensor sentinel: a Hub 2 manufacturer payload long
enough to decode whose decoded temperature is exactly 0 and whose masked
humidity is exactly 0 makes `process_wohub2` return the empty attribute
mapping rather than a 0°C/0% reading. -/
theorem C8_zero_sentinel (sd : Option Bytes) (m : Bytes)
    (hlen : 16 ≤ m.length) (h0 : hub2TempC m = 0) (h1 : hub2Humidity m = 0) :
    process_wohub2 sd (some m) = some [] := by
  have h12 : List.get? m 12 = some (m.getD 12 0) := byteAt_eq_getD _ _ (by omega)
  have hsl : sliceFT m 13 16 = [m.getD 13 0, m.getD 14 0, m.getD 15 0] := by
    have := sliceFT_three m 13 (by omega)
    simpa using this
  have hne : m.isEmpty = false := by
    cases m with
    | nil => simp at hlen
    | cons x t => rfl
  simp only [hub2TempC] at h0
  simp only [hub2Humidity] at h1
  simp only [process_wohub2, hne, Bool.false_eq_true, if_false, h12,
    Option.bind_eq_bind, Option.some_bind, hsl, List.isEmpty_cons, byteAt,
    List.get?]
  rw [if_pos ⟨h0, h1⟩]

/-- Witness for C8: the all-zero 16-byte payload decodes to temperature
0 and humidity 0 and yields the empty mapping. -/
theorem C8_zero_sentinel_witness :
    hub2TempC [0, 0, 0, 0, 0, 0, 0, 0, 0, 0, 0, 0, 0, 0, 0, 0] = 0 ∧
    hub2Humidity [0, 0, 0, 0, 0, 0, 0, 0, 0, 0, 0, 0, 0, 0, 0, 0] = 0 ∧
    process_wohub2 none (some [0, 0, 0, 0, 0, 0, 0, 0, 0, 0, 0, 0, 0, 0, 0, 0]) =
      some [] :=
  have h0 : hub2TempC [0, 0, 0, 0, 0, 0, 0, 0, 0, 0, 0, 0, 0, 0, 0, 0] = 0 := by
    norm_num [hub2TempC, bitB]
  ⟨h0, rfl, C8_zero_sentinel none _ (by decide) h0 rfl⟩

/-- C9. Humidifier filter alert threshold: whenever
`process_evaporative_humidifier` decodes a manufacturer payload, the
filter run-time is the duration of `h` hours with `h` the big-endian
16-bit integer at bytes 12..13 masked with `0xFFF`, and `filter_alert`
is true exactly when that duration reaches 10 days, i.e. `240 ≤ h`. -/
theorem C9_filter_alert (sd : Option Bytes) (m : Bytes) (attrs : AttrMap)
    (h : process_evaporative_humidifier sd (some m) = some attrs) :
    attrs.lookup (AKey.s "filter_run_time") =
      some (aDur ((m.getD 12 0 * 256 + m.getD 13 0) &&& 0xFFF)) ∧
    attrs.lookup (AKey.s "filter_alert") =
      some (aBool (decide (240 ≤ (m.getD 12 0 * 256 + m.getD 13 0) &&& 0xFFF))) := by
  simp only [process_evaporative_humidifier, Option.bind_eq_bind,
    Option.bind_eq_some] at h
  obtain ⟨m6, hm6, m7, hm7, mo, hmo, m8, hm8, m9, hm9, m11, hm11, m16, hm16,
    hsome⟩ := h
  have hlen : 16 < m.length := byteAt_some_lt m 16 m16 hm16
  have hsl : sliceFT m 12 14 = [m.getD 12 0, m.getD 13 0] := by
    have := sliceFT_two m 12 (by omega)
    simpa using this
  have hbe : beNat (sliceFT m 12 14) = m.getD 12 0 * 256 + m.getD 13 0 := by
    rw [hsl]; simp [beNat]
  have hdec : decide (10 ≤ ((m.getD 12 0 * 256 + m.getD 13 0) &&& 0xFFF) / 24) =
      decide (240 ≤ (m.getD 12 0 * 256 + m.getD 13 0) &&& 0xFFF) := by
    rw [decide_eq_decide]
    omega
  obtain rfl : _ = attrs := Option.some.inj hsome
  rw [← hdec, hbe.symm]
  constructor <;> rfl

/-- Witness for C9: a concrete 17-byte payload with filter field
`0x012C` (300 hours, alert on). -/
theorem C9_filter_alert_witness :
    process_evaporative_humidifier none
      (some [0, 0, 0, 0, 0, 0, 2, 0x82, 0, 0, 0, 1, 0x01, 0x2C, 0, 0, 0x40]) =
      some [(.s "seq_number", aNat 2),
            (.s "isOn", aBool true),
            (.s "mode", aEnum "HumidifierMode" 2),
            (.s "over_humidify_protection", aBool false),
            (.s "child_lock", aBool false),
            (.s "tank_removed", aBool false),
            (.s "tilted_alert", aBool false),
            (.s "filter_missing", aBool false),
            (.s "is_meter_binded", aBool false),
            (.s "humidity", aNone),
            (.s "temperature", aNone),
            (.s "temp", .vDict [(.s "c", .vNone), (.s "f", .vNone)]),
            (.s "water_level", aStr "low"),
            (.s "filter_run_time", aDur 300),
            (.s "filter_alert", aBool true),
            (.s "target_humidity", aNat 64)] ∧
    ([(.s "seq_number", aNat 2),
      (.s "isOn", aBool true),
      (.s "mode", aEnum "HumidifierMode" 2),
      (.s "over_humidify_protection", aBool false),
      (.s "child_lock", aBool false),
      (.s "tank_removed", aBool false),
      (.s "tilted_alert", aBool false),
      (.s "filter_missing", aBool false),
      (.s "is_meter_binded", aBool false),
      (.s "humidity", aNone),
      (.s "temperature", aNone),
      (.s "temp", .vDict [(.s "c", .vNone), (.s "f", .vNone)]),
      (.s "water_level", aStr "low"),
      (.s "filter_run_time", aDur 300),
      (.s "filter_alert", aBool true),
      (.s "target_humidity", aNat 64)] : AttrMap).lookup
        (AKey.s "filter_run_time") = some (aDur 300) :=
  ⟨by decide,
   ((C9_filter_alert none
      [0, 0, 0, 0, 0, 0, 2, 0x82, 0, 0, 0, 1, 0x01, 0x2C, 0, 0, 0x40] _
      (by decide)).1).trans (by decide)⟩

/-- C10. Evaporative-humidifier humidity range invariant: whenever
`process_evaporative_humidifier` accepts a manufacturer payload, the
humidity attribute is `None` or an integer in 0..100; it is `None`
exactly when the meter-binding bit (byte 9, mask `0x80`) is clear, the
payload slice is shorter than 3 bytes, or the masked raw humidity
exceeds 100 — and then temperature and `temp.c`/`temp.f` are `None`
too. -/
theorem C10_humidity_invariant (sd : Option Bytes) (m : Bytes)
    (attrs : AttrMap)
    (h : process_evaporative_humidifier sd (some m) = some attrs) :
    (attrs.lookup (AKey.s "humidity") = some aNone ∨
      ∃ n : Nat, attrs.lookup (AKey.s "humidity") = some (aNat n) ∧ n ≤ 100) ∧
    (attrs.lookup (AKey.s "humidity") = some aNone ↔
      (bitB (m.getD 9 0) 0b10000000 = false ∨ (sliceFT m 9 12).length < 3 ∨
        100 < m.getD 9 0 &&& 0b01111111)) ∧
    (attrs.lookup (AKey.s "humidity") = some aNone →
      attrs.lookup (AKey.s "temperature") = some aNone ∧
      attrs.lookup (AKey.s "temp") =
        some (.vDict [(.s "c", .vNone), (.s "f", .vNone)])) := by
  simp only [process_evaporative_humidifier, Option.bind_eq_bind,
    Option.bind_eq_some] at h
  obtain ⟨m6, hm6, m7, hm7, mo, hmo, m8, hm8, m9, hm9, m11, hm11, m16, hm16,
    hsome⟩ := h
  have hlen : 16 < m.length := byteAt_some_lt m 16 m16 hm16
  have hsl : sliceFT m 9 12 = [m.getD 9 0, m.getD 10 0, m.getD 11 0] := by
    have := sliceFT_three m 9 (by omega)
    simpa using this
  have hm9' : m9 = m.getD 9 0 := by
    have := byteAt_eq_getD m 9 (by omega)
    rw [this] at hm9
    exact (Option.some.inj hm9).symm
  obtain rfl : _ = attrs := Option.some.inj hsome
  subst hm9'
  cases hbind : bitB (m.getD 9 0) 0b10000000 with
  | false =>
    have hcalc : calculate_temperature_and_humidity (sliceFT m 9 12) false =
        (none, none, none) := by
      simp [calculate_temperature_and_humidity]
    simp only [hbind, hcalc]
    exact ⟨Or.inl (by rfl), iff_of_true (by rfl) (Or.inl (by simp)),
      fun _ => ⟨by rfl, by rfl⟩⟩
  | true =>
    by_cases hh : 100 < m.getD 9 0 &&& 0b01111111
    · have hcalc : calculate_temperature_and_humidity (sliceFT m 9 12) true =
          (none, none, none) := by
        rw [hsl]
        simp only [calculate_temperature_and_humidity]
        rw [if_neg (by simp), if_pos (by simpa using hh)]
      simp only [hbind, hcalc]
      exact ⟨Or.inl (by rfl),
        iff_of_true (by rfl) (Or.inr (Or.inr hh)),
        fun _ => ⟨by rfl, by rfl⟩⟩
    · obtain ⟨tc, tf, hcalc⟩ : ∃ tc tf,
          calculate_temperature_and_humidity (sliceFT m 9 12) true =
            (some tc, some tf, some (m.getD 9 0 &&& 0b01111111)) := by
        rw [hsl]
        simp only [calculate_temperature_and_humidity]
        rw [if_neg (by simp), if_neg (by simpa using hh)]
        exact ⟨_, _, by rfl⟩
      simp only [hbind, hcalc]
      have hne : ∀ n : Nat,
          some (aNat n) ≠ (some aNone : Option AttrVal) := by
        intro n hc
        simp [aNat, aNone] at hc
      refine ⟨Or.inr ⟨m.getD 9 0 &&& 0b01111111, by rfl, by omega⟩,
        iff_of_false ?_ ?_,
        fun hc => absurd (show some (aNat (m.getD 9 0 &&& 0b01111111)) =
          (some aNone : Option AttrVal) by rw [← hc]; rfl) (hne _)⟩
      · intro hc
        refine hne (m.getD 9 0 &&& 0b01111111) ?_
        rw [← hc]
        rfl
      · rw [hsl]
        push_neg
        refine ⟨by simp [hbind], by simp, by omega⟩

/-- Witness for C10: a concrete payload with the meter-binding bit clear
decodes, and its humidity attribute is `None`. -/
theorem C10_humidity_invariant_witness :
    process_evaporative_humidifier none
      (some [0, 0, 0, 0, 0, 0, 1, 0x81, 0, 0, 0, 0, 0, 0, 0, 0, 0x32]) =
      some [(.s "seq_number", aNat 1),
            (.s "isOn", aBool true),
            (.s "mode", aEnum "HumidifierMode" 1),
            (.s "over_humidify_protection", aBool false),
            (.s "child_lock", aBool false),
            (.s "tank_removed", aBool false),
            (.s "tilted_alert", aBool false),
            (.s "filter_missing", aBool false),
            (.s "is_meter_binded", aBool false),
            (.s "humidity", aNone),
            (.s "temperature", aNone),
            (.s "temp", .vDict [(.s "c", .vNone), (.s "f", .vNone)]),
            (.s "water_level", aStr "empty"),
            (.s "filter_run_time", aDur 0),
            (.s "filter_alert", aBool false),
            (.s "target_humidity", aNat 50)] ∧
    (([(.s "seq_number", aNat 1),
       (.s "isOn", aBool true),
       (.s "mode", aEnum "HumidifierMode" 1),
       (.s "over_humidify_protection", aBool false),
       (.s "child_lock", aBool false),
       (.s "tank_removed", aBool false),
       (.s "tilted_alert", aBool false),
       (.s "filter_missing", aBool false),
       (.s "is_meter_binded", aBool false),
       (.s "humidity", aNone),
       (.s "temperature", aNone),
       (.s "temp", .vDict [(.s "c", .vNone), (.s "f", .vNone)]),
       (.s "water_level", aStr "empty"),
       (.s "filter_run_time", aDur 0),
       (.s "filter_alert", aBool false),
       (.s "target_humidity", aNat 50)] : AttrMap).lookup
         (AKey.s "humidity") = some aNone ↔
      (bitB (([0, 0, 0, 0, 0, 0, 1, 0x81, 0, 0, 0, 0, 0, 0, 0, 0,
               0x32] : Bytes).getD 9 0) 0b10000000 = false ∨
       (sliceFT [0, 0, 0, 0, 0, 0, 1, 0x81, 0, 0, 0, 0, 0, 0, 0, 0, 0x32]
         9 12).length < 3 ∨
       100 < ([0, 0, 0, 0, 0, 0, 1, 0x81, 0, 0, 0, 0, 0, 0, 0, 0,
               0x32] : Bytes).getD 9 0 &&& 0b01111111)) :=
  ⟨by decide,
   (C10_humidity_invariant none
     [0, 0, 0, 0, 0, 0, 1, 0x81, 0, 0, 0, 0, 0, 0, 0, 0, 0x32] _
     (by decide)).2.1⟩

theorem findSome?_none {α β : Type} (f : α → Option β) (l : List α)
    (h : ∀ x ∈ l, f x = none) : l.findSome? f = none := by
  induction l with
  | nil => rfl
  | cons a t ih =>
    rw [List.findSome?_cons, h a (List.mem_cons_self a t)]
    exact ih (fun x hx => h x (List.mem_cons_of_mem a hx))

/-- C6. Absent-input boundary: when none of the two vendor service UUIDs
appears in the service-data map and none of the three company ids
appears in the manufacturer-data map, `parse_advertisement_data` returns
`None` regardless of the model hint (and in particular on fully empty
advertisement maps). -/
theorem C6_absent_input (address : String) (adv : AdvertisementData)
    (hint : Option Model) (ks : Int)
    (hs : ∀ u ∈ SERVICE_DATA_ORDER, adv.service_data.lookup u = none)
    (hm : ∀ i ∈ MFR_DATA_ORDER, adv.manufacturer_data.lookup i = none) :
    (parse_advertisement_data address adv hint ks).1 = none := by
  have h1 : selectServiceData adv = none := findSome?_none _ _ hs
  have h2 : selectMfrData adv = (none, none) := by
    unfold selectMfrData
    rw [findSome?_none _ _ (fun i hi => by rw [hm i hi]; rfl)]
  unfold parse_advertisement_data
  rw [h1, h2]
  simp

/-- Witness for C6: empty service-data and manufacturer-data maps give
no result even under a keypad model hint. -/
theorem C6_absent_input_witness :
    (parse_advertisement_data "aa:bb:cc:dd:ee:ff" ⟨[], [], -50⟩
      (some Model.KEYPAD) 3).1 = none :=
  C6_absent_input "aa:bb:cc:dd:ee:ff" ⟨[], [], -50⟩ (some Model.KEYPAD) 3
    (by decide) (by decide)

/-- C3. Exception containment at the resolver boundary: whenever the
underlying `_parse_data` computation raises (any parser exception,
including truncated-buffer indexing and out-of-range enum values),
`parse_advertisement_data` returns `None` instead of propagating. -/
theorem C3_exception_containment (address : String) (adv : AdvertisementData)
    (hint : Option Model) (ks : Int)
    (h : (parseData (selectServiceData adv) (selectMfrData adv).1
            (selectMfrData adv).2 hint ks).1 = .raised) :
    (parse_advertisement_data address adv hint ks).1 = none := by
  unfold parse_advertisement_data
  by_cases hc : (selectMfrData adv).1 = none ∧ selectServiceData adv = none
  · rw [if_pos hc]
  · rw [if_neg hc]
    simp only [h]

/-- Witness for C3: a keypad advertisement with a 1-byte service payload
and a 7-byte manufacturer payload makes the keypad parser raise
(`data[2]` is out of range), and the resolver returns `None`. -/
theorem C3_exception_containment_witness :
    (parseData
        (selectServiceData ⟨[("0000fd3d-0000-1000-8000-00805f9b34fb", [0x79])],
          [(2409, [0, 0, 0, 0, 0, 0, 5])], -50⟩)
        (selectMfrData ⟨[("0000fd3d-0000-1000-8000-00805f9b34fb", [0x79])],
          [(2409, [0, 0, 0, 0, 0, 0, 5])], -50⟩).1
        (selectMfrData ⟨[("0000fd3d-0000-1000-8000-00805f9b34fb", [0x79])],
          [(2409, [0, 0, 0, 0, 0, 0, 5])], -50⟩).2
        none 0).1 = .raised ∧
    (parse_advertisement_data "aa:bb:cc:dd:ee:ff"
        ⟨[("0000fd3d-0000-1000-8000-00805f9b34fb", [0x79])],
         [(2409, [0, 0, 0, 0, 0, 0, 5])], -50⟩ none 0).1 = none :=
  ⟨by decide,
   C3_exception_containment "aa:bb:cc:dd:ee:ff"
     ⟨[("0000fd3d-0000-1000-8000-00805f9b34fb", [0x79])],
      [(2409, [0, 0, 0, 0, 0, 0, 5])], -50⟩ none 0 (by decide)⟩

/-- C5. Trailing 4-byte discriminator preference: for service-data
present, strictly longer than 5 bytes, whose last 4 bytes are a
byte-sequence key of the dispatch table, the resolver takes that 4-byte
discriminator as the model, overriding the 7-bit character scheme (and
any hint). -/
theorem C5_trailing_discriminator (sd md : Option Bytes) (mid : Option Nat)
    (hint : Option Model) (ks : Int) (b : Bytes)
    (hsd : sd = some b) (hlen : 5 < b.length)
    (hmem : keyMem (.bs (lastN 4 b)) = true) :
    resolveModel sd md mid hint = some (some (.bs (lastN 4 b))) ∧
    ∀ r, (parseData sd md mid hint ks).1 = .ok r →
      r.model = .bs (lastN 4 b) := by
  subst hsd
  obtain ⟨x, rest, rfl⟩ : ∃ x rest, b = x :: rest := by
    cases b with
    | nil => simp at hlen
    | cons x rest => exact ⟨x, rest, rfl⟩
  have hlen' : 4 < rest.length := by
    simp only [List.length_cons] at hlen
    omega
  have h1 : resolveModel (some (x :: rest)) md mid hint =
      some (some (.bs (lastN 4 (x :: rest)))) := by
    unfold resolveModel
    cases hint with
    | none => simp [hmem, hlen']
    | some h => cases hmc : modelToChar h <;> simp [hmc, hmem, hlen']
  refine ⟨h1, fun r hr => ?_⟩
  unfold parseData at hr
  simp only [h1] at hr
  cases hty : lookupType (DKey.bs (lastN 4 (x :: rest))) with
  | none =>
    simp only [hty] at hr
    injection hr with hr'
    rw [← hr']
  | some t =>
    simp only [hty] at hr
    cases hrp : (runParser t.func (some (x :: rest)) md ks).1 with
    | none =>
      simp only [hrp] at hr
      exact ParseOutcome.noConfusion hr
    | some attrs =>
      simp only [hrp] at hr
      by_cases ha : attrs.isEmpty
      · rw [if_pos ha] at hr
        injection hr with hr'
        rw [← hr']
      · rw [if_neg ha] at hr
        injection hr with hr'
        rw [← hr']

/-- Witness for C5: a 7-byte service payload ending in the Hub3 product
code resolves to the 4-byte discriminator. -/
theorem C5_trailing_discriminator_witness :
    5 < ([1, 2, 3, 0x00, 0x10, 0xB9, 0x40] : Bytes).length ∧
    keyMem (.bs (lastN 4 [1, 2, 3, 0x00, 0x10, 0xB9, 0x40])) = true ∧
    resolveModel (some [1, 2, 3, 0x00, 0x10, 0xB9, 0x40]) none none none =
      some (some (.bs (lastN 4 [1, 2, 3, 0x00, 0x10, 0xB9, 0x40]))) :=
  ⟨by decide, by decide,
   (C5_trailing_discriminator (some [1, 2, 3, 0x00, 0x10, 0xB9, 0x40]) none
     none none 0 [1, 2, 3, 0x00, 0x10, 0xB9, 0x40] rfl (by decide)
     (by decide)).1⟩

/-- C4. Empty-parser-result suppression: when the resolved discriminator
is in the dispatch table and its parser returns a mapping, an empty
mapping yields the minimal record (raw service-data, discriminator,
encryption flag, empty attributes, no friendly-name/model enrichment),
and a non-empty mapping yields the enriched record with
`modelFriendlyName` and `modelName` merged in. -/
theorem C4_empty_result_suppression (sd md : Option Bytes) (mid : Option Nat)
    (hint : Option Model) (ks ks2 : Int) (k : DKey) (t : SupportedType)
    (attrs : AttrMap)
    (hres : resolveModel sd md mid hint = some (some k))
    (hty : lookupType k = some t)
    (hrun : runParser t.func sd md ks = (some attrs, ks2)) :
    (parseData sd md mid hint ks).1 =
      (if attrs.isEmpty then
        ParseOutcome.ok ⟨sd, [], k, isEncryptedOf sd, none, none⟩
      else
        ParseOutcome.ok ⟨sd, attrs, k, isEncryptedOf sd,
          some t.modelFriendlyName, some t.modelName⟩) := by
  unfold parseData
  rw [hres]
  simp only
  rw [hty]
  simp only [hrun]
  split <;> rfl

/-- Witness for C4: a 1-byte evaporative-humidifier service payload with
no manufacturer data; the parser returns the empty mapping, and the
record keeps the discriminator but carries no enrichment. -/
theorem C4_empty_result_suppression_witness :
    resolveModel (some [0x23]) none none none = some (some (.ch 0x23)) ∧
    lookupType (.ch 0x23) = some ⟨.EVAPORATIVE_HUMIDIFIER,
      "Evaporative Humidifier", .process_evaporative_humidifier, 2409, none⟩ ∧
    runParser ParserFn.process_evaporative_humidifier (some [0x23]) none 0 =
      (some [], 0) ∧
    (parseData (some [0x23]) none none none 0).1 =
      (if ([] : AttrMap).isEmpty then
        ParseOutcome.ok ⟨some [0x23], [], .ch 0x23,
          isEncryptedOf (some [0x23]), none, none⟩
      else
        ParseOutcome.ok ⟨some [0x23], [], .ch 0x23,
          isEncryptedOf (some [0x23]), some "Evaporative Humidifier",
          some Model.EVAPORATIVE_HUMIDIFIER⟩) :=
  ⟨by decide, by decide, by decide,
   C4_empty_result_suppression (some [0x23]) none none none 0 0 (.ch 0x23)
     ⟨.EVAPORATIVE_HUMIDIFIER, "Evaporative Humidifier",
      .process_evaporative_humidifier, 2409, none⟩ [] (by decide) (by decide)
     (by decide)⟩

/-- Counterexample to C2 as stated. The service byte `0x67` (`"g"`)
implies `PLUG_MINI`, yet hinting `PLUG_MINI` changes the output: the
reverse index maps `PLUG_MINI` to the last-listed discriminator `"j"`,
so the hinted record carries model `"j"`/"Plug Mini (JP)" instead of
`"g"`/"Plug Mini". -/
theorem C2_redundant_hint_counterexample :
    (∃ t, lookupType (DKey.ch (0x67 &&& 0b01111111)) = some t ∧
      t.modelName = Model.PLUG_MINI) ∧
    (parseData (some [0x67]) none none (some Model.PLUG_MINI) 0).1 ≠
      (parseData (some [0x67]) none none none 0).1 :=
  ⟨⟨⟨.PLUG_MINI, "Plug Mini", .process_woplugmini, 2409, none⟩, by decide,
    rfl⟩, by decide⟩

/-- C2 (amended). Redundant model hint is an identity exactly when the
service-data's implied discriminator is the one the model→discriminator
reverse index keeps for that model (always true for models with a single
discriminator; for a model listed under several discriminators the index
keeps the last-listed one, and hinting from any other alias rewrites the
discriminator and friendly name, as the counterexample shows). -/
theorem C2_redundant_hint (sd md : Option Bytes) (mid : Option Nat)
    (ks : Int) (b : Nat) (rest : Bytes) (t : SupportedType)
    (hsd : sd = some (b :: rest))
    (hty : lookupType (.ch (b &&& 0b01111111)) = some t)
    (hchar : modelToChar t.modelName = some (.ch (b &&& 0b01111111))) :
    parseData sd md mid (some t.modelName) ks =
      parseData sd md mid none ks := by
  subst hsd
  have hres : resolveModel (some (b :: rest)) md mid (some t.modelName) =
      resolveModel (some (b :: rest)) md mid none := by
    unfold resolveModel
    dsimp only
    rw [hchar]
  unfold parseData
  rw [hres]

/-- Witness for C2 (amended): the lock discriminator `"o"` is the only
one mapping to `LOCK`, so hinting `LOCK` on an `"o"` advertisement is an
identity. -/
theorem C2_redundant_hint_witness :
    lookupType (.ch (0x6F &&& 0b01111111)) =
      some ⟨.LOCK, "Lock", .process_wolock, 2409, none⟩ ∧
    modelToChar Model.LOCK = some (.ch (0x6F &&& 0b01111111)) ∧
    parseData (some [0x6F]) none none (some Model.LOCK) 0 =
      parseData (some [0x6F]) none none none 0 :=
  ⟨by decide, by decide,
   C2_redundant_hint (some [0x6F]) none none 0 0x6F []
     ⟨.LOCK, "Lock", .process_wolock, 2409, none⟩ rfl (by decide) (by decide)⟩

/-- Counterexample to C1 as stated. The keypad parser keeps hidden
mutable state (`process_wokeypad.lastStatus`), so two uncached
`_parse_data` runs on identical arguments separated by an interleaved
keypad call with a different sequence byte give different results: the
first run reports `success = False`, the rerun `success = True`. -/
theorem C1_determinism_counterexample :
    (parseData (some [0x79, 0, 100]) (some [0, 0, 0, 0, 0, 0, 5])
        (some 2409) none
        ((parseData (some [0x79, 0, 100]) (some [0, 0, 0, 0, 0, 0, 10])
            (some 2409) none
            ((parseData (some [0x79, 0, 100]) (some [0, 0, 0, 0, 0, 0, 5])
                (some 2409) none (-1)).2)).2)).1 ≠
      (parseData (some [0x79, 0, 100]) (some [0, 0, 0, 0, 0, 0, 5])
          (some 2409) none (-1)).1 := by
  decide

theorem keypad_only_key : ∀ p ∈ SUPPORTED_TYPES,
    p.2.func = ParserFn.process_wokeypad → p.1 = DKey.ch 0x79 := by
  decide

theorem runParser_state (fn : ParserFn) (sd md : Option Bytes) (ks : Int)
    (h : fn ≠ ParserFn.process_wokeypad) :
    runParser fn sd md ks = ((runParser fn sd md 0).1, ks) := by
  cases fn <;> first
    | exact absurd rfl h
    | rfl

/-- C1 (amended). `_parse_data` is deterministic in its four arguments
together with the keypad parser's hidden `lastStatus`: whenever the
resolved discriminator is not the keypad's `"y"`, the outcome is
independent of the hidden state and the state is left unchanged, so any
interleaving of such calls is harmless; only keypad-dispatched
advertisements read and mutate the hidden state (and for them the
memoization cache can return a stale `success` flag, as the
counterexample shows). -/
theorem C1_determinism (sd md : Option Bytes) (mid : Option Nat)
    (hint : Option Model) (ks1 ks2 : Int)
    (h : resolveModel sd md mid hint ≠ some (some (DKey.ch 0x79))) :
    (parseData sd md mid hint ks1).1 = (parseData sd md mid hint ks2).1 ∧
    (parseData sd md mid hint ks1).2 = ks1 := by
  unfold parseData
  cases hres : resolveModel sd md mid hint with
  | none => exact ⟨rfl, rfl⟩
  | some o =>
    cases o with
    | none => exact ⟨rfl, rfl⟩
    | some k =>
      simp only
      cases hty : lookupType k with
      | none => exact ⟨rfl, rfl⟩
      | some t =>
        have hk : k ≠ DKey.ch 0x79 := fun he => h (by rw [hres, he])
        have hfn : t.func ≠ ParserFn.process_wokeypad := by
          intro hf
          obtain ⟨p, hfd, hp2⟩ : ∃ p,
              SUPPORTED_TYPES.find? (fun q => q.1 == k) = some p ∧
                p.2 = t := by
            unfold lookupType at hty
            cases hfd : SUPPORTED_TYPES.find? (fun q => q.1 == k) with
            | none => rw [hfd] at hty; exact Option.noConfusion hty
            | some p =>
              rw [hfd] at hty
              exact ⟨p, rfl, Option.some.inj hty⟩
          have hmem := List.mem_of_find?_eq_some hfd
          have hpred := List.find?_some hfd
          have hkey : p.1 = DKey.ch 0x79 :=
            keypad_only_key p hmem (by rw [hp2]; exact hf)
          exact hk (by rw [← eq_of_beq hpred, hkey])
        simp only [runParser_state t.func sd md ks1 hfn,
          runParser_state t.func sd md ks2 hfn]
        cases (runParser t.func sd md 0).1 with
        | none => exact ⟨rfl, rfl⟩
        | some attrs =>
          dsimp only
          by_cases ha : attrs.isEmpty
          · rw [if_pos ha, if_pos ha]
            exact ⟨rfl, rfl⟩
          · rw [if_neg ha, if_neg ha]
            exact ⟨rfl, rfl⟩

/-- Witness for C1 (amended): a plug-mini advertisement does not resolve
to the keypad, so its parse is the same from hidden state 3 and 7 and
leaves the state untouched. -/
theorem C1_determinism_witness :
    resolveModel (some [0x67]) none none none ≠
      some (some (DKey.ch 0x79)) ∧
    ((parseData (some [0x67]) none none none 3).1 =
        (parseData (some [0x67]) none none none 7).1 ∧
      (parseData (some [0x67]) none none none 3).2 = 3) :=
  ⟨by decide, C1_determinism (some [0x67]) none none none 3 7 (by decide)⟩

end PySwitchbot
